import Mathlib

/-!
Verification development for the dissociation-query service in `src/app.py`.

The embedding models, from the source:
  * `parse_coords` — the coordinate-token parser (a list comprehension
    converting each `_`-separated part with the platform float parser,
    returning `None` on any conversion failure or when the part count is
    not 3);
  * the term resolver SQL (`SELECT study_id ... WHERE term = :term_a EXCEPT
    SELECT study_id ... WHERE term = :term_b LIMIT 250`);
  * the spatial resolver SQL (the same `EXCEPT ... LIMIT 250` shape over a
    proximity predicate `ST_DWithin(geom, point, radius)`, kept abstract
    because the spec treats the spatial index as an external capability);
  * the two request handlers `dissociate_by_term` and
    `dissociate_by_location`, with the storage collaborator abstracted as a
    fallible query function and with the issued queries recorded in a trace
    so that claims about "no storage access" and "no retry" are statable.

Modelling notes.
  * Python float values are represented by `PyFloat`: a finite decimal
    literal is kept exactly as a mantissa/exponent pair (`Dec`), and the
    special values infinity, negative infinity and NaN are explicit
    constructors.  Binary rounding of decimal literals is immaterial to
    every claim below, so literal values are kept exact.
  * The float-string grammar is the CPython one restricted to ASCII:
    optional surrounding whitespace, an optional sign, then either a
    decimal literal (integer part and/or fractional part, optional
    exponent) or one of `inf`, `infinity`, `nan` case-insensitively.
  * Study identifiers are modelled as `Nat`; the core treats them opaquely.
  * The relational engine return order is unspecified in the spec; the
    model fixes one concrete deterministic order (first occurrence), which
    no claim depends on.
-/

/-- An exactly represented decimal number: `man * 10 ^ exp`. -/
structure Dec where
  man : Int
  exp : Int
deriving DecidableEq, Repr

/-- The rational value denoted by a `Dec`. -/
def Dec.toRat (d : Dec) : Rat := (d.man : Rat) * (10 : Rat) ^ d.exp

/-- A Python float value as produced by `float(s)` on a string: a finite
decimal literal (kept exact), an infinity, or NaN. -/
inductive PyFloat where
  | fin : Dec → PyFloat
  | inf : PyFloat
  | neginf : PyFloat
  | nan : PyFloat
deriving DecidableEq, Repr

/-- Positivity of a parsed radius value, used to state the claims that
assume `radius > 0`. -/
def PyFloat.pos : PyFloat → Prop
  | .fin d => 0 < d.toRat
  | .inf => True
  | .neginf => False
  | .nan => False

/-- The numeric value of an ASCII digit character. -/
def digVal (c : Char) : Nat := c.toNat - 48

/-- The natural number denoted by a list of ASCII digit characters. -/
def digitsToNat (ds : List Char) : Nat := ds.foldl (fun n c => 10 * n + digVal c) 0

/-- Exponent suffix of a float literal, after the `e`/`E` has been
consumed: an optional sign followed by at least one digit. -/
def parseExp (cs : List Char) : Option Int :=
  match cs with
  | '+' :: rest =>
      if rest ≠ [] ∧ rest.all Char.isDigit then some (digitsToNat rest) else none
  | '-' :: rest =>
      if rest ≠ [] ∧ rest.all Char.isDigit then some (-(digitsToNat rest : Int)) else none
  | rest =>
      if rest ≠ [] ∧ rest.all Char.isDigit then some (digitsToNat rest) else none

/-- An unsigned numeric float literal: `d+`, `d+.d*`, `.d+`, each with an
optional `e`/`E` exponent.  Returns the exact decimal value. -/
def parseNumber (cs : List Char) : Option Dec :=
  let ip := cs.takeWhile Char.isDigit
  let rest := cs.dropWhile Char.isDigit
  match rest with
  | [] => if ip ≠ [] then some ⟨digitsToNat ip, 0⟩ else none
  | '.' :: rest2 =>
      let fp := rest2.takeWhile Char.isDigit
      let rest3 := rest2.dropWhile Char.isDigit
      if ip = [] ∧ fp = [] then none
      else
        let man : Int := digitsToNat ip * 10 ^ fp.length + digitsToNat fp
        match rest3 with
        | [] => some ⟨man, -(fp.length : Int)⟩
        | e :: rest4 =>
            if e = 'e' ∨ e = 'E' then
              (parseExp rest4).map fun ex => ⟨man, ex - fp.length⟩
            else none
  | e :: rest2 =>
      if (e = 'e' ∨ e = 'E') ∧ ip ≠ [] then
        (parseExp rest2).map fun ex => ⟨digitsToNat ip, ex⟩
      else none

/-- Negate a finite decimal. -/
def Dec.neg (d : Dec) : Dec := ⟨-d.man, d.exp⟩

/-- The body of a float literal after the optional sign: `inf`, `infinity`
or `nan` case-insensitively, or a numeric literal. -/
def pyFloatBody (cs : List Char) (positive : Bool) : Option PyFloat :=
  let low := cs.map Char.toLower
  if low = "inf".toList ∨ low = "infinity".toList then
    some (if positive then .inf else .neginf)
  else if low = "nan".toList then
    some .nan
  else
    (parseNumber cs).map fun d => .fin (if positive then d else d.neg)

/-- ASCII whitespace stripped by the Python float parser. -/
def pyWS : List Char := [' ', '\t', '\n', '\r', '\x0b', '\x0c']

/-- Python `float(s)` on a character list that has already been stripped of
surrounding whitespace: optional sign, then the literal body. -/
def pyFloatCore (cs : List Char) : Option PyFloat :=
  match cs with
  | '+' :: rest => pyFloatBody rest true
  | '-' :: rest => pyFloatBody rest false
  | rest => pyFloatBody rest true

/-- Python `float` on a character list: strip surrounding whitespace, then
parse sign and body.  `none` models the `ValueError` raised on a bad
literal. -/
def pyFloatChars (cs : List Char) : Option PyFloat :=
  pyFloatCore (((cs.dropWhile (· ∈ pyWS)).reverse.dropWhile (· ∈ pyWS)).reverse)

/-- Python `float(s)` on a string. -/
def pyFloat? (s : String) : Option PyFloat :=
  pyFloatChars s.toList

/-- Python `s.split(sep)` for a single-character separator, on character
lists: splitting the empty string gives one empty part, and adjacent
separators give empty parts. -/
def splitUnderscore (cs : List Char) : List (List Char) :=
  match cs with
  | [] => [[]]
  | c :: rest =>
      let r := splitUnderscore rest
      if c = '_' then [] :: r
      else
        match r with
        | h :: t => (c :: h) :: t
        | [] => [[c]]

/-- The Python list comprehension `[float(p) for p in parts]` run under a
`try`: the whole conversion fails as soon as one part fails. -/
def optMapAll (f : List Char → Option PyFloat) : List (List Char) → Option (List PyFloat)
  | [] => some []
  | a :: as =>
      match f a, optMapAll f as with
      | some b, some bs => some (b :: bs)
      | _, _ => none

/-- A parsed coordinate triple. -/
abbrev Point3 : Type := PyFloat × PyFloat × PyFloat

/-- `parse_coords` from `src/app.py`: split the token on `_`, convert every
part with the float parser, and succeed exactly when all conversions
succeed and there are exactly 3 parts; any failure yields `none`. -/
def parse_coords (s : String) : Option Point3 :=
  match optMapAll pyFloatChars (splitUnderscore s.toList) with
  | some [a, b, c] => some (a, b, c)
  | _ => none

/-- Modelled from the spec: a "finite decimal number (sign and fractional
part permitted, e.g. `-52`, `26.0`)" — an optional sign followed by digits
with an optional fractional part, with no exponent and no special values.
Used to compare the wording of the spec with the acceptance behaviour of
the platform float parser. -/
def isSignedDecimalLit (cs : List Char) : Bool :=
  let body :=
    match cs with
    | '+' :: rest => rest
    | '-' :: rest => rest
    | rest => rest
  let ds := body.takeWhile Char.isDigit
  let rest := body.dropWhile Char.isDigit
  match rest with
  | [] => !ds.isEmpty
  | '.' :: rest2 => rest2.all Char.isDigit && !(ds.isEmpty && rest2.isEmpty)
  | _ => false

/-- A row of the `ns.annotations_terms` relation; the core reads only
`study_id` and `term`. -/
structure AnnotRow where
  study_id : Nat
  term : String
deriving DecidableEq, Repr

/-- `SELECT study_id FROM ns.annotations_terms WHERE term = :t`: the study
ids of the rows whose term equals `t` exactly (case-sensitive). -/
def termIds (db : List AnnotRow) (t : String) : List Nat :=
  (db.filter fun r => decide (r.term = t)).map fun r => r.study_id

/-- The `EXCEPT` of the two term selections: the distinct study ids that
match `a` and do not match `b`, in engine order, before the `LIMIT`. -/
def termDissocIds (db : List AnnotRow) (a b : String) : List Nat :=
  (termIds db a).dedup.filter fun s => decide (s ∉ termIds db b)

/-- The full term dissociation query of `dissociate_by_term`:
`... EXCEPT ... LIMIT 250`. -/
def runTermQuery (db : List AnnotRow) (a b : String) : List Nat :=
  (termDissocIds db a b).take 250

/-- A row of the `ns.coordinates` relation.  The geometry type `G` is
abstract: the spec treats the spatial index and its proximity metric as a
capability of the storage collaborator. -/
structure CoordRow (G : Type) where
  study_id : Nat
  geom : G
deriving DecidableEq, Repr

/-- The query parameters of one spatial `EXCEPT` query: the two points and
the radius bound into the SQL text. -/
structure SpatialQuery where
  p1 : Point3
  p2 : Point3
  radius : PyFloat
deriving DecidableEq, Repr

/-- `SELECT study_id FROM ns.coordinates WHERE ST_DWithin(geom, p, r)`,
with the proximity operator `ST_DWithin` abstracted as `near`. -/
def nearIds {G : Type} (near : G → Point3 → PyFloat → Bool) (cdb : List (CoordRow G))
    (p : Point3) (r : PyFloat) : List Nat :=
  (cdb.filter fun row => near row.geom p r).map fun row => row.study_id

/-- The `EXCEPT` of the two proximity selections, before the `LIMIT`:
distinct study ids near `q.p1` minus those near `q.p2`, both legs with the
single radius `q.radius`. -/
def spatialDissocIds {G : Type} (near : G → Point3 → PyFloat → Bool)
    (cdb : List (CoordRow G)) (q : SpatialQuery) : List Nat :=
  (nearIds near cdb q.p1 q.radius).dedup.filter fun s =>
    decide (s ∉ nearIds near cdb q.p2 q.radius)

/-- The full spatial dissociation query of `dissociate_by_location`:
`... EXCEPT ... LIMIT 250`. -/
def runSpatialQuery {G : Type} (near : G → Point3 → PyFloat → Bool)
    (cdb : List (CoordRow G)) (q : SpatialQuery) : List Nat :=
  (spatialDissocIds near cdb q).take 250

/-- A storage-layer failure: SQLAlchemy raises `OperationalError` for
connectivity faults, anything else is a generic query failure. -/
inductive DBError where
  | operational : String → DBError
  | other : String → DBError
deriving DecidableEq, Repr

/-- `str(e)` for a storage failure. -/
def DBError.msg : DBError → String
  | .operational m => m
  | .other m => m

/-- The error string produced by the two `except` clauses of
`dissociate_by_location`. -/
def DBError.locRender : DBError → String
  | .operational m => "Database connection failed: " ++ m
  | .other m => "Query failed: " ++ m

/-- The parameters of the one SQL query issued by `dissociate_by_term`. -/
structure TermQuery where
  term_a : String
  term_b : String
deriving DecidableEq, Repr

/-- The response of the term endpoint: the 200 payload or the 500 error. -/
inductive TermResponse where
  | ok : String → String → List Nat → TermResponse
  | error : String → TermResponse
deriving DecidableEq, Repr

/-- `dissociate_by_term` from `src/app.py`, with the storage collaborator
abstracted as the fallible `runQ` and the issued queries returned as a
trace.  A storage failure is rendered by the single `except` clause as
`"Database error: " ++ str(e)`. -/
def dissociate_by_term (runQ : TermQuery → Except DBError (List Nat))
    (term_a term_b : String) : TermResponse × List TermQuery :=
  match runQ ⟨term_a, term_b⟩ with
  | .ok ids => (.ok term_a term_b ids, [⟨term_a, term_b⟩])
  | .error e => (.error ("Database error: " ++ e.msg), [⟨term_a, term_b⟩])

/-- An inbound spatial request: the two path parameters and the two raw
optional query parameters. -/
structure LocRequest where
  coords_a : String
  coords_b : String
  radiusParam : Option String
  bidirParam : Option String
deriving DecidableEq, Repr

/-- One direction block of the spatial response; `fromC` and `notC` are the
JSON fields `from` and `not`. -/
structure DirBlock where
  fromC : String
  notC : String
  count : Nat
  study_ids : List Nat
deriving DecidableEq, Repr

/-- The 200 payload of the spatial endpoint; `dirBA` is present exactly
when the handler added the `direction_B_minus_A` key. -/
structure LocPayload where
  coords_a : String
  coords_b : String
  radius : PyFloat
  dirAB : DirBlock
  dirBA : Option DirBlock
deriving DecidableEq, Repr

/-- The response of the spatial endpoint: 200 payload, 400 abort, or 500
error. -/
inductive LocResponse where
  | ok : LocPayload → LocResponse
  | clientError : String → LocResponse
  | serverError : String → LocResponse
deriving DecidableEq, Repr

/-- The payload of a successful response, if any. -/
def LocResponse.getOk? : LocResponse → Option LocPayload
  | .ok p => some p
  | _ => none

/-- `request.args.get("radius", default=10, type=float)`: the default 10
when the parameter is absent, and — Flask swallowing the `ValueError` of
the converter — also when the supplied string is not float-parseable. -/
def parseRadius : Option String → PyFloat
  | none => .fin ⟨10, 0⟩
  | some s => (pyFloat? s).getD (.fin ⟨10, 0⟩)

/-- Python `s.lower()` restricted to ASCII. -/
def pyLower (s : String) : List Char := s.toList.map Char.toLower

/-- `request.args.get("bidirectional", default="false").lower() == "true"`. -/
def bidirFlag (req : LocRequest) : Bool :=
  pyLower (req.bidirParam.getD "false") = "true".toList

/-- The 400 message of the coordinate-format abort. -/
def invalidCoordMsg : String :=
  "Invalid coordinate format. Use x_y_z (e.g., \x270_-52_26\x27)."

/-- `dissociate_by_location` from `src/app.py`, with the storage
collaborator abstracted as the fallible `runQ` and the issued queries
returned as a trace in issue order.  Both coordinate tokens are parsed
first; a parse failure aborts with 400 before any query is issued.  The
A-to-B query always runs first; only under the bidirectional flag does the
B-to-A query run, with the two points swapped and the same radius.  A
failure of either query yields a single 500 response rendered by the two
`except` clauses, discarding any earlier result. -/
def dissociate_by_location (runQ : SpatialQuery → Except DBError (List Nat))
    (req : LocRequest) : LocResponse × List SpatialQuery :=
  let radius := parseRadius req.radiusParam
  match parse_coords req.coords_a, parse_coords req.coords_b with
  | some pa, some pb =>
      let qAB : SpatialQuery := ⟨pa, pb, radius⟩
      (match runQ qAB with
       | .error e => (.serverError e.locRender, [qAB])
       | .ok idsAB =>
           if bidirFlag req then
             let qBA : SpatialQuery := ⟨pb, pa, radius⟩
             match runQ qBA with
             | .error e => (.serverError e.locRender, [qAB, qBA])
             | .ok idsBA =>
                 (.ok ⟨req.coords_a, req.coords_b, radius,
                    ⟨req.coords_a, req.coords_b, idsAB.length, idsAB⟩,
                    some ⟨req.coords_b, req.coords_a, idsBA.length, idsBA⟩⟩,
                  [qAB, qBA])
           else
             (.ok ⟨req.coords_a, req.coords_b, radius,
                ⟨req.coords_a, req.coords_b, idsAB.length, idsAB⟩, none⟩,
              [qAB]))
  | _, _ => (.clientError invalidCoordMsg, [])

/-- The storage collaborator modelled over a concrete corpus: every query
succeeds and returns the engine result of the dissociation SQL. -/
def modelRunQ {G : Type} (near : G → Point3 → PyFloat → Bool)
    (cdb : List (CoordRow G)) : SpatialQuery → Except DBError (List Nat) :=
  fun q => .ok (runSpatialQuery near cdb q)

/-- The term storage collaborator modelled over a concrete corpus. -/
def modelTermRunQ (db : List AnnotRow) : TermQuery → Except DBError (List Nat) :=
  fun q => .ok (runTermQuery db q.term_a q.term_b)

/-- The end-to-end scenario corpus of the spec: studies 1, 2, 3 tagged
"fear" and 2, 3 tagged "reward". -/
def exDb : List AnnotRow :=
  [⟨1, "fear"⟩, ⟨2, "fear"⟩, ⟨3, "fear"⟩, ⟨2, "reward"⟩, ⟨3, "reward"⟩]

/-- A corpus in which 251 distinct studies carry term "A". -/
def db251 : List AnnotRow := (List.range 251).map fun i => ⟨i, "A"⟩

/-- A proximity metric that accepts everything, used to instantiate the
abstract spatial predicate in witnesses. -/
def nearAll : Unit → Point3 → PyFloat → Bool := fun _ _ _ => true

/-- A two-row coordinate corpus over the trivial geometry type. -/
def unitCdb : List (CoordRow Unit) := [⟨1, ()⟩, ⟨2, ()⟩]

/-- The origin point. -/
def originP : Point3 := (.fin ⟨0, 0⟩, .fin ⟨0, 0⟩, .fin ⟨0, 0⟩)

/-- The radius value 10. -/
def radius10 : PyFloat := .fin ⟨10, 0⟩

/-- A storage stub whose every query succeeds with the empty result. -/
def okRunQ : SpatialQuery → Except DBError (List Nat) := fun _ => .ok []

/-- A concrete spatial request with the bidirectional parameter set to
TRUE in upper case. -/
def c5req : LocRequest := ⟨"0_0_0", "1_1_1", none, some "TRUE"⟩

/-- The payload the handler produces for `c5req` under `okRunQ`. -/
def c5payload : LocPayload :=
  ⟨"0_0_0", "1_1_1", radius10, ⟨"0_0_0", "1_1_1", 0, []⟩,
   some ⟨"1_1_1", "0_0_0", 0, []⟩⟩

/-- The point with coordinates (1, 2, 3). -/
def p123 : Point3 := (.fin ⟨1, 0⟩, .fin ⟨2, 0⟩, .fin ⟨3, 0⟩)

/-- A term storage stub that always fails with a generic failure. -/
def failTermRunQ : TermQuery → Except DBError (List Nat) := fun _ => .error (.other "boom")

/-- A spatial storage stub that answers the query issued from the origin
and fails with a connectivity fault on any other query — so in a
bidirectional request the second, swapped query is the failing one. -/
def secondFailRunQ : SpatialQuery → Except DBError (List Nat) :=
  fun q => if q.p1 = originP then .ok [7] else .error (.operational "down")

/-- A concrete bidirectional request from the origin to (1, 2, 3). -/
def c9req : LocRequest := ⟨"0_0_0", "1_2_3", none, some "true"⟩

example : pyFloat? "0" = some (.fin ⟨0, 0⟩) := by decide

example : pyFloat? "-52" = some (.fin ⟨-52, 0⟩) := by decide

example : pyFloat? "26.0" = some (.fin ⟨260, -1⟩) := by decide

example : pyFloat? "nan" = some .nan := by decide

example : pyFloat? " +1.5e3 " = some (.fin ⟨15, 2⟩) := by decide

example : pyFloat? "INFINITY" = some .inf := by decide

example : pyFloat? "abc" = none := by decide

example : pyFloat? "" = none := by decide

example : pyFloat? "1.2.3" = none := by decide

example : parse_coords "0_-52_26" = some (.fin ⟨0, 0⟩, .fin ⟨-52, 0⟩, .fin ⟨26, 0⟩) := by decide

example : parse_coords "1_2" = none := by decide

example : parse_coords "a_b_c" = none := by decide

example : parse_coords "1_2_3_4" = none := by decide

example : parse_coords "nan_0_0" = some (.nan, .fin ⟨0, 0⟩, .fin ⟨0, 0⟩) := by decide

example : isSignedDecimalLit "nan".toList = false := by decide

example : isSignedDecimalLit "-52".toList = true := by decide

example : isSignedDecimalLit "26.0".toList = true := by decide

theorem optMapAll_isSome (f : List Char → Option PyFloat) (xs : List (List Char)) :
    (optMapAll f xs).isSome ↔ ∀ x ∈ xs, (f x).isSome := by
  induction xs with
  | nil => simp [optMapAll]
  | cons a as ih =>
      cases hfa : f a with
      | none => simp [optMapAll, hfa]
      | some b =>
          cases has : optMapAll f as with
          | none => simp [optMapAll, hfa, has] at ih ⊢; exact ih
          | some bs => simp [optMapAll, hfa, has] at ih ⊢; exact ih

theorem optMapAll_length (f : List Char → Option PyFloat) (xs : List (List Char))
    (l : List PyFloat) (h : optMapAll f xs = some l) : l.length = xs.length := by
  induction xs generalizing l with
  | nil => simp [optMapAll] at h; simp [← h]
  | cons a as ih =>
      cases hfa : f a with
      | none => simp [optMapAll, hfa] at h
      | some b =>
          cases has : optMapAll f as with
          | none => simp [optMapAll, hfa, has] at h
          | some bs =>
              simp [optMapAll, hfa, has] at h
              simp [← h, ih bs has]

theorem parse_coords_isSome (s : String) :
    (parse_coords s).isSome ↔
      (splitUnderscore s.toList).length = 3 ∧
        ∀ p ∈ splitUnderscore s.toList, (pyFloatChars p).isSome := by
  unfold parse_coords
  cases h : optMapAll pyFloatChars (splitUnderscore s.toList) with
  | none =>
      constructor
      · intro hs; simp at hs
      · rintro ⟨_, hall⟩
        have hsome := (optMapAll_isSome pyFloatChars (splitUnderscore s.toList)).mpr hall
        rw [h] at hsome
        simp at hsome
  | some l =>
      have hlen := optMapAll_length pyFloatChars _ l h
      have hall := (optMapAll_isSome pyFloatChars (splitUnderscore s.toList)).mp
        (by rw [h]; rfl)
      rcases l with _ | ⟨a, _ | ⟨b, _ | ⟨c, _ | ⟨d, rest⟩⟩⟩⟩ <;>
        simp_all <;> omega

theorem mem_termIds (db : List AnnotRow) (t : String) (s : Nat) :
    s ∈ termIds db t ↔ ∃ r ∈ db, r.term = t ∧ r.study_id = s := by
  simp only [termIds, List.mem_map, List.mem_filter, decide_eq_true_eq]
  constructor
  · rintro ⟨r, ⟨hr, ht⟩, hs⟩; exact ⟨r, hr, ht, hs⟩
  · rintro ⟨r, hr, ht, hs⟩; exact ⟨r, ⟨hr, ht⟩, hs⟩

theorem mem_termDissocIds (db : List AnnotRow) (a b : String) (s : Nat) :
    s ∈ termDissocIds db a b ↔
      (∃ r ∈ db, r.term = a ∧ r.study_id = s) ∧
        ¬ ∃ r ∈ db, r.term = b ∧ r.study_id = s := by
  simp only [termDissocIds, List.mem_filter, List.mem_dedup, decide_eq_true_eq,
    mem_termIds]

theorem nodup_termDissocIds (db : List AnnotRow) (a b : String) :
    (termDissocIds db a b).Nodup :=
  (List.nodup_dedup (termIds db a)).filter _

theorem mem_nearIds {G : Type} (near : G → Point3 → PyFloat → Bool)
    (cdb : List (CoordRow G)) (p : Point3) (r : PyFloat) (s : Nat) :
    s ∈ nearIds near cdb p r ↔ ∃ row ∈ cdb, near row.geom p r = true ∧ row.study_id = s := by
  simp only [nearIds, List.mem_map, List.mem_filter]
  constructor
  · rintro ⟨row, ⟨hr, hn⟩, hs⟩; exact ⟨row, hr, hn, hs⟩
  · rintro ⟨row, hr, hn, hs⟩; exact ⟨row, ⟨hr, hn⟩, hs⟩

theorem mem_spatialDissocIds {G : Type} (near : G → Point3 → PyFloat → Bool)
    (cdb : List (CoordRow G)) (q : SpatialQuery) (s : Nat) :
    s ∈ spatialDissocIds near cdb q ↔
      s ∈ nearIds near cdb q.p1 q.radius ∧ s ∉ nearIds near cdb q.p2 q.radius := by
  simp only [spatialDissocIds, List.mem_filter, List.mem_dedup, decide_eq_true_eq]

theorem termDissocIds_self (db : List AnnotRow) (a : String) :
    termDissocIds db a a = [] := by
  unfold termDissocIds
  rw [List.filter_eq_nil_iff]
  intro s hs
  simp only [List.mem_dedup] at hs
  simp [hs]

theorem spatialDissocIds_self {G : Type} (near : G → Point3 → PyFloat → Bool)
    (cdb : List (CoordRow G)) (p : Point3) (r : PyFloat) :
    spatialDissocIds near cdb ⟨p, p, r⟩ = [] := by
  unfold spatialDissocIds
  rw [List.filter_eq_nil_iff]
  intro s hs
  simp only [List.mem_dedup] at hs
  simp [hs]

theorem loc_parse_fail (runQ : SpatialQuery → Except DBError (List Nat)) (req : LocRequest)
    (h : parse_coords req.coords_a = none ∨ parse_coords req.coords_b = none) :
    dissociate_by_location runQ req = (.clientError invalidCoordMsg, []) := by
  cases ha : parse_coords req.coords_a with
  | none => simp [dissociate_by_location, ha]
  | some pa =>
      cases hb : parse_coords req.coords_b with
      | none => simp [dissociate_by_location, ha, hb]
      | some pb => simp [ha, hb] at h

theorem loc_first_error (runQ : SpatialQuery → Except DBError (List Nat)) (req : LocRequest)
    (pa pb : Point3) (e : DBError)
    (ha : parse_coords req.coords_a = some pa) (hb : parse_coords req.coords_b = some pb)
    (h1 : runQ ⟨pa, pb, parseRadius req.radiusParam⟩ = .error e) :
    dissociate_by_location runQ req =
      (.serverError e.locRender, [⟨pa, pb, parseRadius req.radiusParam⟩]) := by
  simp [dissociate_by_location, ha, hb, h1]

theorem loc_ok_unidir (runQ : SpatialQuery → Except DBError (List Nat)) (req : LocRequest)
    (pa pb : Point3) (ids : List Nat)
    (ha : parse_coords req.coords_a = some pa) (hb : parse_coords req.coords_b = some pb)
    (hbd : bidirFlag req = false)
    (h1 : runQ ⟨pa, pb, parseRadius req.radiusParam⟩ = .ok ids) :
    dissociate_by_location runQ req =
      (.ok ⟨req.coords_a, req.coords_b, parseRadius req.radiusParam,
         ⟨req.coords_a, req.coords_b, ids.length, ids⟩, none⟩,
       [⟨pa, pb, parseRadius req.radiusParam⟩]) := by
  simp [dissociate_by_location, ha, hb, h1, hbd]

theorem loc_ok_bidir (runQ : SpatialQuery → Except DBError (List Nat)) (req : LocRequest)
    (pa pb : Point3) (ids1 ids2 : List Nat)
    (ha : parse_coords req.coords_a = some pa) (hb : parse_coords req.coords_b = some pb)
    (hbd : bidirFlag req = true)
    (h1 : runQ ⟨pa, pb, parseRadius req.radiusParam⟩ = .ok ids1)
    (h2 : runQ ⟨pb, pa, parseRadius req.radiusParam⟩ = .ok ids2) :
    dissociate_by_location runQ req =
      (.ok ⟨req.coords_a, req.coords_b, parseRadius req.radiusParam,
         ⟨req.coords_a, req.coords_b, ids1.length, ids1⟩,
         some ⟨req.coords_b, req.coords_a, ids2.length, ids2⟩⟩,
       [⟨pa, pb, parseRadius req.radiusParam⟩, ⟨pb, pa, parseRadius req.radiusParam⟩]) := by
  simp [dissociate_by_location, ha, hb, h1, h2, hbd]

theorem loc_second_error (runQ : SpatialQuery → Except DBError (List Nat)) (req : LocRequest)
    (pa pb : Point3) (ids1 : List Nat) (e : DBError)
    (ha : parse_coords req.coords_a = some pa) (hb : parse_coords req.coords_b = some pb)
    (hbd : bidirFlag req = true)
    (h1 : runQ ⟨pa, pb, parseRadius req.radiusParam⟩ = .ok ids1)
    (h2 : runQ ⟨pb, pa, parseRadius req.radiusParam⟩ = .error e) :
    dissociate_by_location runQ req =
      (.serverError e.locRender,
       [⟨pa, pb, parseRadius req.radiusParam⟩, ⟨pb, pa, parseRadius req.radiusParam⟩]) := by
  simp [dissociate_by_location, ha, hb, h1, h2, hbd]

/-- Claim C1, amended: every study id returned by the term dissociation
query has at least one row with term exactly equal to `a` (case-sensitive,
no normalization) and no row with term exactly equal to `b`; the returned
ids are distinct; and whenever at most 250 study ids qualify, the returned
ids are exactly the qualifying ones.  The LIMIT 250 of the query makes the
unconditional "exactly" of the claim false, so the exactness is conditional
on the uncapped result fitting the cap. -/
theorem C1_term_dissociation (db : List AnnotRow) (a b : String) :
    (∀ s ∈ runTermQuery db a b,
        (∃ r ∈ db, r.term = a ∧ r.study_id = s) ∧
          ¬ ∃ r ∈ db, r.term = b ∧ r.study_id = s) ∧
    (runTermQuery db a b).Nodup ∧
    ((termDissocIds db a b).length ≤ 250 →
      ∀ s : Nat, s ∈ runTermQuery db a b ↔
        (∃ r ∈ db, r.term = a ∧ r.study_id = s) ∧
          ¬ ∃ r ∈ db, r.term = b ∧ r.study_id = s) := by
  refine ⟨?_, ?_, ?_⟩
  · intro s hs
    exact (mem_termDissocIds db a b s).mp (List.take_subset _ _ hs)
  · exact (nodup_termDissocIds db a b).sublist (List.take_sublist _ _)
  · intro hle s
    unfold runTermQuery
    rw [List.take_of_length_le hle]
    exact mem_termDissocIds db a b s

/-- Witness for C1 on the end-to-end scenario corpus of the spec: the
query (fear, reward) returns exactly study 1. -/
theorem C1_term_dissociation_witness :
    1 ∈ runTermQuery exDb "fear" "reward" ∧ runTermQuery exDb "fear" "reward" = [1] :=
  ⟨((C1_term_dissociation exDb "fear" "reward").2.2 (by decide) 1).mpr (by decide),
   by decide⟩

set_option maxRecDepth 100000 in
/-- Counterexample to claim C1 as stated: in a corpus where the 251
studies 0..250 carry term "A" and none carry term "B", study 250 has a row
with term "A" and no row with term "B", yet it is not among the returned
study ids — the LIMIT 250 truncated it away. -/
theorem C1_cap_counterexample :
    ((∃ r ∈ db251, r.term = "A" ∧ r.study_id = 250) ∧
      ¬ ∃ r ∈ db251, r.term = "B" ∧ r.study_id = 250) ∧
    250 ∉ runTermQuery db251 "A" "B" := by decide

/-- Claim C2: every dissociation result list of either resolver has at
most 250 entries, and is exactly the truncation to 250 of the
engine-ordered EXCEPT result. -/
theorem C2_result_cap :
    (∀ (db : List AnnotRow) (a b : String),
        (runTermQuery db a b).length ≤ 250 ∧
          runTermQuery db a b = (termDissocIds db a b).take 250) ∧
    (∀ (G : Type) (near : G → Point3 → PyFloat → Bool) (cdb : List (CoordRow G))
        (q : SpatialQuery),
        (runSpatialQuery near cdb q).length ≤ 250 ∧
          runSpatialQuery near cdb q = (spatialDissocIds near cdb q).take 250) := by
  constructor
  · intro db a b
    refine ⟨?_, rfl⟩
    unfold runTermQuery
    rw [List.length_take]
    omega
  · intro G near cdb q
    refine ⟨?_, rfl⟩
    unfold runSpatialQuery
    rw [List.length_take]
    omega

/-- Counterexample to claim C3 as stated: the token nan_0_0 splits into
exactly 3 parts, its first part nan is not a finite decimal number in the
sense of the spec, yet the parser returns a present value (NaN, 0.0, 0.0)
rather than absent. -/
theorem C3_counterexample :
    (splitUnderscore "nan_0_0".toList).length = 3 ∧
    isSignedDecimalLit "nan".toList = false ∧
    parse_coords "nan_0_0" = some (.nan, .fin ⟨0, 0⟩, .fin ⟨0, 0⟩) := by decide

/-- Claim C3, amended: the parser returns a present value iff splitting
the token on the underscore yields exactly 3 parts and every part is
accepted by the platform float parser — which, beyond signed finite
decimals, also accepts scientific notation, the special values inf,
infinity and nan (case-insensitive, optionally signed) and surrounding
whitespace; on any other input it returns absent (it never raises, the
return type being an option).  The quoted examples hold as stated. -/
theorem C3_parse_characterization :
    (∀ s : String, (parse_coords s).isSome ↔
      ((splitUnderscore s.toList).length = 3 ∧
        ∀ p ∈ splitUnderscore s.toList, (pyFloatChars p).isSome)) ∧
    parse_coords "0_-52_26" = some (.fin ⟨0, 0⟩, .fin ⟨-52, 0⟩, .fin ⟨26, 0⟩) ∧
    Dec.toRat ⟨0, 0⟩ = 0 ∧ Dec.toRat ⟨-52, 0⟩ = -52 ∧ Dec.toRat ⟨26, 0⟩ = 26 ∧
    parse_coords "1_2" = none ∧ parse_coords "a_b_c" = none ∧
    parse_coords "1_2_3_4" = none := by
  refine ⟨parse_coords_isSome, by decide, ?_, ?_, ?_, by decide, by decide, by decide⟩
  · norm_num [Dec.toRat]
  · norm_num [Dec.toRat]
  · norm_num [Dec.toRat]

/-- Claim C4: self-dissociation is empty — the term resolver on a pair of
equal terms returns the empty list, and for every positive radius the
spatial A-minus-B query at an equal pair of points returns the empty list,
whatever the proximity metric decides. -/
theorem C4_self_dissociation :
    (∀ (db : List AnnotRow) (a : String), runTermQuery db a a = []) ∧
    (∀ (G : Type) (near : G → Point3 → PyFloat → Bool) (cdb : List (CoordRow G))
        (p : Point3) (r : PyFloat), r.pos →
        runSpatialQuery near cdb ⟨p, p, r⟩ = []) := by
  constructor
  · intro db a
    unfold runTermQuery
    rw [termDissocIds_self]
    rfl
  · intro G near cdb p r _
    unfold runSpatialQuery
    rw [spatialDissocIds_self]
    rfl

/-- Witness for C4: concrete self-dissociations are empty at term fear and
at the origin with radius 10 under an all-accepting metric. -/
theorem C4_self_dissociation_witness :
    runTermQuery exDb "fear" "fear" = [] ∧
    runSpatialQuery nearAll unitCdb ⟨originP, originP, radius10⟩ = [] :=
  ⟨C4_self_dissociation.1 exDb "fear",
   C4_self_dissociation.2 Unit nearAll unitCdb originP radius10
     (by norm_num [PyFloat.pos, radius10, Dec.toRat])⟩

/-- Every query issued by the spatial handler carries the radius parsed
from the request, and so does every successful payload. -/
theorem loc_radius_invariant (runQ : SpatialQuery → Except DBError (List Nat))
    (req : LocRequest) :
    (∀ q ∈ (dissociate_by_location runQ req).2, q.radius = parseRadius req.radiusParam) ∧
    ∀ p, (dissociate_by_location runQ req).1 = .ok p →
      p.radius = parseRadius req.radiusParam := by
  cases ha : parse_coords req.coords_a with
  | none =>
      rw [loc_parse_fail runQ req (Or.inl ha)]
      simp
  | some pa =>
      cases hb : parse_coords req.coords_b with
      | none =>
          rw [loc_parse_fail runQ req (Or.inr hb)]
          simp
      | some pb =>
          cases h1 : runQ ⟨pa, pb, parseRadius req.radiusParam⟩ with
          | error e =>
              rw [loc_first_error runQ req pa pb e ha hb h1]
              simp
          | ok ids1 =>
              cases hbd : bidirFlag req with
              | false =>
                  rw [loc_ok_unidir runQ req pa pb ids1 ha hb hbd h1]
                  constructor
                  · intro q hq
                    simp at hq
                    rw [hq]
                  · intro p hp
                    simp at hp
                    rw [← hp]
              | true =>
                  cases h2 : runQ ⟨pb, pa, parseRadius req.radiusParam⟩ with
                  | error e =>
                      rw [loc_second_error runQ req pa pb ids1 e ha hb hbd h1 h2]
                      constructor
                      · intro q hq
                        simp at hq
                        rcases hq with hq | hq <;> rw [hq]
                      · intro p hp
                        simp at hp
                  | ok ids2 =>
                      rw [loc_ok_bidir runQ req pa pb ids1 ids2 ha hb hbd h1 h2]
                      constructor
                      · intro q hq
                        simp at hq
                        rcases hq with hq | hq <;> rw [hq]
                      · intro p hp
                        simp at hp
                        rw [← hp]

/-- Claim C5: a successful spatial response carries the optional
direction_B_minus_A block exactly when the lowercased value of the
bidirectional query parameter (the parameter defaulting to the string
false when absent) equals true; the direction_A_minus_B block is an
always-present field of the success payload. -/
theorem C5_bidirectional_flag (runQ : SpatialQuery → Except DBError (List Nat))
    (req : LocRequest) (p : LocPayload)
    (h : (dissociate_by_location runQ req).1 = .ok p) :
    p.dirBA.isSome ↔ pyLower (req.bidirParam.getD "false") = "true".toList := by
  cases ha : parse_coords req.coords_a with
  | none =>
      rw [loc_parse_fail runQ req (Or.inl ha)] at h
      simp at h
  | some pa =>
      cases hb : parse_coords req.coords_b with
      | none =>
          rw [loc_parse_fail runQ req (Or.inr hb)] at h
          simp at h
      | some pb =>
          cases h1 : runQ ⟨pa, pb, parseRadius req.radiusParam⟩ with
          | error e =>
              rw [loc_first_error runQ req pa pb e ha hb h1] at h
              simp at h
          | ok ids1 =>
              cases hbd : bidirFlag req with
              | false =>
                  rw [loc_ok_unidir runQ req pa pb ids1 ha hb hbd h1] at h
                  simp only [bidirFlag, decide_eq_false_iff_not] at hbd
                  simp at h
                  rw [← h]
                  simpa using hbd
              | true =>
                  cases h2 : runQ ⟨pb, pa, parseRadius req.radiusParam⟩ with
                  | error e =>
                      rw [loc_second_error runQ req pa pb ids1 e ha hb hbd h1 h2] at h
                      simp at h
                  | ok ids2 =>
                      rw [loc_ok_bidir runQ req pa pb ids1 ids2 ha hb hbd h1 h2] at h
                      simp only [bidirFlag, decide_eq_true_eq] at hbd
                      simp at h
                      rw [← h]
                      simpa using hbd

/-- Witness for C5: the upper-case value TRUE enables the second block. -/
theorem C5_bidirectional_flag_witness :
    c5payload.dirBA.isSome ↔ pyLower (c5req.bidirParam.getD "false") = "true".toList :=
  C5_bidirectional_flag okRunQ c5req c5payload (by decide)

/-- Claim C6: over any modelled corpus and proximity metric, the
B-minus-A list of a bidirectional request on (a, b) and the A-minus-B
list of the swapped request on (b, a) are both the engine result of the
same swapped set-difference query, independently capped at 250; the trace
of the bidirectional request shows the two issued queries carrying the
single caller radius (which each query applies to both of its proximity
legs). -/
theorem C6_bidirectional_symmetry (G : Type) (near : G → Point3 → PyFloat → Bool)
    (cdb : List (CoordRow G)) (ca cb : String) (rad? bid? : Option String)
    (pa pb : Point3)
    (hca : parse_coords ca = some pa) (hcb : parse_coords cb = some pb) :
    ((dissociate_by_location (modelRunQ near cdb) ⟨ca, cb, rad?, some "true"⟩).1.getOk?.map
        fun p => p.dirBA.map fun d => d.study_ids)
      = some (some (runSpatialQuery near cdb ⟨pb, pa, parseRadius rad?⟩)) ∧
    ((dissociate_by_location (modelRunQ near cdb) ⟨cb, ca, rad?, bid?⟩).1.getOk?.map
        fun p => p.dirAB.study_ids)
      = some (runSpatialQuery near cdb ⟨pb, pa, parseRadius rad?⟩) ∧
    (runSpatialQuery near cdb ⟨pb, pa, parseRadius rad?⟩).length ≤ 250 ∧
    (dissociate_by_location (modelRunQ near cdb) ⟨ca, cb, rad?, some "true"⟩).2
      = [⟨pa, pb, parseRadius rad?⟩, ⟨pb, pa, parseRadius rad?⟩] := by
  have hbd : bidirFlag ⟨ca, cb, rad?, some "true"⟩ = true := rfl
  have hfwd := loc_ok_bidir (modelRunQ near cdb) ⟨ca, cb, rad?, some "true"⟩ pa pb
    (runSpatialQuery near cdb ⟨pa, pb, parseRadius rad?⟩)
    (runSpatialQuery near cdb ⟨pb, pa, parseRadius rad?⟩) hca hcb hbd rfl rfl
  refine ⟨?_, ?_, ?_, ?_⟩
  · rw [hfwd]
    simp [LocResponse.getOk?]
  · cases hbd2 : bidirFlag ⟨cb, ca, rad?, bid?⟩ with
    | false =>
        rw [loc_ok_unidir (modelRunQ near cdb) ⟨cb, ca, rad?, bid?⟩ pb pa
          (runSpatialQuery near cdb ⟨pb, pa, parseRadius rad?⟩) hcb hca hbd2 rfl]
        simp [LocResponse.getOk?]
    | true =>
        rw [loc_ok_bidir (modelRunQ near cdb) ⟨cb, ca, rad?, bid?⟩ pb pa
          (runSpatialQuery near cdb ⟨pb, pa, parseRadius rad?⟩)
          (runSpatialQuery near cdb ⟨pa, pb, parseRadius rad?⟩) hcb hca hbd2 rfl rfl]
        simp [LocResponse.getOk?]
  · unfold runSpatialQuery
    rw [List.length_take]
    omega
  · rw [hfwd]

/-- Witness for C6: the cap conclusion at a concrete corpus, metric and
pair of coordinate tokens. -/
theorem C6_bidirectional_symmetry_witness :
    (runSpatialQuery nearAll unitCdb ⟨p123, originP, parseRadius none⟩).length ≤ 250 :=
  (C6_bidirectional_symmetry Unit nearAll unitCdb "0_0_0" "1_2_3" none none originP p123
    (by decide) (by decide)).2.2.1

/-- Claim C7: when the radius query parameter is omitted, every query the
spatial handler issues carries radius exactly 10, and a successful
response echoes radius exactly 10. -/
theorem C7_default_radius (runQ : SpatialQuery → Except DBError (List Nat))
    (ca cb : String) (bid? : Option String) :
    (∀ q ∈ (dissociate_by_location runQ ⟨ca, cb, none, bid?⟩).2,
        q.radius = .fin ⟨10, 0⟩) ∧
    ∀ p, (dissociate_by_location runQ ⟨ca, cb, none, bid?⟩).1 = .ok p →
      p.radius = .fin ⟨10, 0⟩ := by
  have h := loc_radius_invariant runQ ⟨ca, cb, none, bid?⟩
  exact h

/-- Witness for C7: the one query issued for a concrete radius-less
request carries radius 10. -/
theorem C7_default_radius_witness :
    (⟨originP, p123, PyFloat.fin ⟨10, 0⟩⟩ : SpatialQuery).radius = .fin ⟨10, 0⟩ :=
  (C7_default_radius okRunQ "0_0_0" "1_2_3" none).1 ⟨originP, p123, .fin ⟨10, 0⟩⟩
    (by decide)

/-- Claim C8: when either coordinate token fails the parser, the request
is answered with the 400 client-input abort carrying the descriptive
message, and the trace is empty — no storage query is issued and neither
resolver runs. -/
theorem C8_malformed_coords (runQ : SpatialQuery → Except DBError (List Nat))
    (req : LocRequest)
    (h : parse_coords req.coords_a = none ∨ parse_coords req.coords_b = none) :
    dissociate_by_location runQ req = (.clientError invalidCoordMsg, []) :=
  loc_parse_fail runQ req h

/-- Witness for C8 at the token 1_2_x of the spec. -/
theorem C8_malformed_coords_witness :
    dissociate_by_location okRunQ ⟨"1_2_x", "0_0_0", none, none⟩ =
      (.clientError invalidCoordMsg, []) :=
  C8_malformed_coords okRunQ ⟨"1_2_x", "0_0_0", none, none⟩ (Or.inl (by decide))

/-- Claim C9: storage failures are terminal and never retried.  A failing
term query produces the single 500 error carrying the underlying message,
with exactly one query issued.  In the spatial handler, a failure of the
first query produces the single 500 error with exactly that query issued;
in bidirectional mode a failure of the second query produces the single
500 error with exactly the two queries issued once each — the
already-computed A-to-B result is discarded, the response holding no
payload. -/
theorem C9_storage_failure_terminal :
    (∀ (runQ : TermQuery → Except DBError (List Nat)) (a b : String) (e : DBError),
        runQ ⟨a, b⟩ = .error e →
          dissociate_by_term runQ a b =
            (.error ("Database error: " ++ e.msg), [⟨a, b⟩])) ∧
    (∀ (runQ : SpatialQuery → Except DBError (List Nat)) (req : LocRequest)
        (pa pb : Point3) (e : DBError),
        parse_coords req.coords_a = some pa → parse_coords req.coords_b = some pb →
        runQ ⟨pa, pb, parseRadius req.radiusParam⟩ = .error e →
          dissociate_by_location runQ req =
            (.serverError e.locRender, [⟨pa, pb, parseRadius req.radiusParam⟩])) ∧
    (∀ (runQ : SpatialQuery → Except DBError (List Nat)) (req : LocRequest)
        (pa pb : Point3) (ids1 : List Nat) (e : DBError),
        parse_coords req.coords_a = some pa → parse_coords req.coords_b = some pb →
        bidirFlag req = true →
        runQ ⟨pa, pb, parseRadius req.radiusParam⟩ = .ok ids1 →
        runQ ⟨pb, pa, parseRadius req.radiusParam⟩ = .error e →
          dissociate_by_location runQ req =
            (.serverError e.locRender,
             [⟨pa, pb, parseRadius req.radiusParam⟩,
              ⟨pb, pa, parseRadius req.radiusParam⟩])) := by
  refine ⟨?_, loc_first_error, loc_second_error⟩
  intro runQ a b e he
  unfold dissociate_by_term
  rw [he]

/-- Witness for C9: the failing term request, and the bidirectional
spatial request whose second query fails after the first succeeded. -/
theorem C9_storage_failure_terminal_witness :
    dissociate_by_term failTermRunQ "fear" "reward" =
      (.error ("Database error: " ++ DBError.msg (.other "boom")), [⟨"fear", "reward"⟩]) ∧
    dissociate_by_location secondFailRunQ c9req =
      (.serverError (DBError.locRender (.operational "down")),
       [⟨originP, p123, parseRadius none⟩, ⟨p123, originP, parseRadius none⟩]) :=
  ⟨C9_storage_failure_terminal.1 failTermRunQ "fear" "reward" (.other "boom") rfl,
   C9_storage_failure_terminal.2.2 secondFailRunQ c9req originP p123 [7]
     (.operational "down") (by decide) (by decide) (by decide) rfl rfl⟩

/-- Claim C10: a radius parameter that is present but not float-parseable
is not a client-input error: the handler behaves exactly as if the
parameter were omitted, the radius falling back to the default 10. -/
theorem C10_unparseable_radius (runQ : SpatialQuery → Except DBError (List Nat))
    (ca cb s : String) (bid? : Option String) (h : pyFloat? s = none) :
    parseRadius (some s) = .fin ⟨10, 0⟩ ∧
    dissociate_by_location runQ ⟨ca, cb, some s, bid?⟩ =
      dissociate_by_location runQ ⟨ca, cb, none, bid?⟩ := by
  have hr : parseRadius (some s) = parseRadius none := by
    simp [parseRadius, h]
  refine ⟨by simp [parseRadius, h], ?_⟩
  unfold dissociate_by_location
  dsimp only [bidirFlag]
  rw [hr]

/-- Witness for C10 at the unparseable radius string abc. -/
theorem C10_unparseable_radius_witness :
    parseRadius (some "abc") = .fin ⟨10, 0⟩ ∧
    dissociate_by_location okRunQ ⟨"0_0_0", "1_2_3", some "abc", none⟩ =
      dissociate_by_location okRunQ ⟨"0_0_0", "1_2_3", none, none⟩ :=
  C10_unparseable_radius okRunQ "0_0_0" "1_2_3" "abc" none (by decide)
